import Mathlib

/-!
Shallow embedding of the EOG cursor-control pipeline
(`src/python/eog_cursor/`: `config.py`, `event_detector.py`,
`cursor_control.py`, `serial_reader.py`, `signal_processing.py`, and
`main.py`), together with theorems settling the frozen claims about it.

Conventions:
* Python `float` time stamps and signal values are modelled as `ℚ`
  (the code only adds, subtracts, compares and scales them).
* Detector step functions take `now` explicitly, as the source does.
* `config.TRIPLE_BLINK_WINDOW` and `config.TRIPLE_BLINK_COOLDOWN` are
  referenced by `event_detector.py` but are not defined anywhere in the
  repository, so touching them raises `AttributeError` at run time.
  Fallible paths are therefore modelled with `Except Unit`, where
  `Except.error ()` stands for that `AttributeError`.
-/

/-! ## Configuration constants (`config.py`), exact rationals -/

def BLINK_THRESHOLD : ℚ := 3000

def BLINK_MIN_DURATION : ℚ := 1/20

def BLINK_MAX_DURATION : ℚ := 1/4

def DOUBLE_BLINK_WINDOW : ℚ := 3/5

def DOUBLE_BLINK_COOLDOWN : ℚ := 4/5

def LONG_BLINK_MIN_DURATION : ℚ := 2/5

def LONG_BLINK_MAX_DURATION : ℚ := 5/2

def LONG_BLINK_COOLDOWN : ℚ := 1

def LOOK_UP_THRESHOLD : ℚ := 2800

def LOOK_DOWN_THRESHOLD : ℚ := 1200

def LOOK_RIGHT_THRESHOLD : ℚ := 2800

def LOOK_LEFT_THRESHOLD : ℚ := 1200

def HORIZONTAL_GAZE_COOLDOWN : ℚ := 1

def SCROLL_COOLDOWN : ℚ := 2/25

def SCROLL_AMOUNT : ℚ := 30

def HEAD_ROLL_THRESHOLD : ℚ := 3000

def HEAD_ROLL_COOLDOWN : ℚ := 1

def HEAD_ROLL_SUPPRESS_DURATION : ℚ := 3/10

def HEAD_ROLL_MAX_DURATION : ℚ := 3/10

def DOUBLE_NOD_THRESHOLD : ℚ := 3000

def DOUBLE_NOD_MAX_DURATION : ℚ := 3/10

def DOUBLE_NOD_WINDOW : ℚ := 4/5

def DOUBLE_NOD_COOLDOWN : ℚ := 1

def GYRO_DEADZONE : ℚ := 300

def CURSOR_SENSITIVITY : ℚ := 1/100

def SS_VELOCITY_RETAIN : ℚ := 19/20

def SS_SENSITIVITY : ℚ := 1/20

def SS_DT : ℚ := 1/200

def KALMAN_Q_OMEGA : ℚ := 1000

def KALMAN_Q_BIAS : ℚ := 1/1000

def KALMAN_R : ℚ := 500

def EOG_BASELINE : ℚ := 2048

/-! ## Python numeric helpers -/

/-- Python `int(q)` on a float: truncation toward zero. -/
def pyInt (q : ℚ) : ℤ :=
  if 0 ≤ q then ⌊q⌋ else -⌊-q⌋

/-- Python `round(q)` to an integer: round half to even (banker's
rounding). -/
def pyRound (q : ℚ) : ℤ :=
  let f := ⌊q⌋
  let r := q - (f : ℚ)
  if r < 1/2 then f
  else if 1/2 < r then f + 1
  else if f % 2 = 0 then f else f + 1

/-! ## Event and state vocabulary (`event_detector.py`) -/

/-- `EOGEvent` enum of `event_detector.py`. -/
inductive EOGEvent
  | none
  | doubleBlink
  | tripleBlink
  | longBlink
  | lookUp
  | lookDown
  | lookLeft
  | lookRight
  deriving DecidableEq, Repr

/-- `BlinkState` enum of `event_detector.py`. -/
inductive BlinkState
  | idle
  | inBlink
  | waitSecond
  | waitThird
  deriving DecidableEq, Repr

/-- The string results returned by the IMU detectors and the string the
controllers compare the nod result against.  `HeadRollDetector.update`
returns `"switch_window"`; `DoubleNodDetector.update` returns
`"center_cursor"`; the controllers test `nod_event == "double_click"`. -/
inductive ImuResult
  | switch_window
  | center_cursor
  | double_click
  deriving DecidableEq, Repr

/-- The direction strings `"right"` / `"left"` stored by `HeadRollDetector`. -/
inductive RollDirection
  | right
  | left
  deriving DecidableEq, Repr

/-! ## BlinkDetector (`event_detector.py` lines 54–180) -/

/-- Mutable fields of `BlinkDetector`. -/
structure BlinkDetector where
  state : BlinkState
  blinkStartTime : ℚ
  blinkEndTime : ℚ
  blinkCount : ℕ
  lastEventTime : ℚ
  deriving DecidableEq, Repr

/-- `BlinkDetector.__init__`. -/
def BlinkDetector.init : BlinkDetector :=
  { state := BlinkState.idle
    blinkStartTime := 0
    blinkEndTime := 0
    blinkCount := 0
    lastEventTime := -100 }

/-- `BlinkDetector.update(eog, now)`.  `Except.error ()` models the
`AttributeError` raised when the code reaches an access to the undefined
`config.TRIPLE_BLINK_COOLDOWN` (line 114) or `config.TRIPLE_BLINK_WINDOW`
(lines 160 and 165).  In state `WAIT_THIRD` both the `if` arm (when
`is_high` is true) and the `elif` arm evaluate `config.TRIPLE_BLINK_WINDOW`,
so every call in that state raises. -/
def BlinkDetector.update (d : BlinkDetector) (eog now : ℚ) :
    Except Unit (BlinkDetector × EOGEvent) :=
  let isHigh := eog > BLINK_THRESHOLD
  match d.state with
  | BlinkState.idle =>
      if isHigh then
        Except.ok ({ d with state := BlinkState.inBlink, blinkStartTime := now,
                            blinkCount := 1 }, EOGEvent.none)
      else
        Except.ok (d, EOGEvent.none)
  | BlinkState.inBlink =>
      let duration := now - d.blinkStartTime
      if isHigh then
        Except.ok (d, EOGEvent.none)
      else if duration < BLINK_MIN_DURATION then
        Except.ok ({ d with state := BlinkState.idle }, EOGEvent.none)
      else if d.blinkCount ≥ 3 then
        -- line 113: `if duration <= config.BLINK_MAX_DURATION:` then line 114
        -- reads the undefined `config.TRIPLE_BLINK_COOLDOWN` → AttributeError
        if duration ≤ BLINK_MAX_DURATION then
          Except.error ()
        else
          Except.ok ({ d with state := BlinkState.idle }, EOGEvent.none)
      else if d.blinkCount ≥ 2 then
        if duration ≤ BLINK_MAX_DURATION then
          Except.ok ({ d with blinkEndTime := now, state := BlinkState.waitThird },
                     EOGEvent.none)
        else
          Except.ok ({ d with state := BlinkState.idle }, EOGEvent.none)
      else if duration ≥ LONG_BLINK_MIN_DURATION then
        if duration ≤ LONG_BLINK_MAX_DURATION ∧
            now - d.lastEventTime > LONG_BLINK_COOLDOWN then
          Except.ok ({ d with state := BlinkState.idle, lastEventTime := now },
                     EOGEvent.longBlink)
        else
          Except.ok ({ d with state := BlinkState.idle }, EOGEvent.none)
      else if duration ≤ BLINK_MAX_DURATION then
        Except.ok ({ d with blinkEndTime := now, state := BlinkState.waitSecond },
                   EOGEvent.none)
      else
        Except.ok ({ d with state := BlinkState.idle }, EOGEvent.none)
  | BlinkState.waitSecond =>
      let elapsed := now - d.blinkEndTime
      if isHigh ∧ elapsed < DOUBLE_BLINK_WINDOW then
        Except.ok ({ d with state := BlinkState.inBlink, blinkStartTime := now,
                            blinkCount := 2 }, EOGEvent.none)
      else if elapsed ≥ DOUBLE_BLINK_WINDOW then
        Except.ok ({ d with state := BlinkState.idle }, EOGEvent.none)
      else
        Except.ok (d, EOGEvent.none)
  | BlinkState.waitThird =>
      -- lines 160/165 read the undefined `config.TRIPLE_BLINK_WINDOW`:
      -- whichever branch is taken, the access raises AttributeError
      Except.error ()


/-! ## GazeDetector (`event_detector.py` lines 183–231) -/

/-- Mutable fields of `GazeDetector` (vertical gaze).  `_min_gaze_duration`
is set to `0.1` in `__init__` and never changed. -/
structure GazeDetector where
  gazeStartTime : ℚ
  currentGaze : EOGEvent
  minGazeDuration : ℚ
  deriving DecidableEq, Repr

/-- `GazeDetector.__init__`. -/
def GazeDetector.init : GazeDetector :=
  { gazeStartTime := 0, currentGaze := EOGEvent.none, minGazeDuration := 1/10 }

/-- `GazeDetector.update(eog, now)`. -/
def GazeDetector.update (g : GazeDetector) (eog now : ℚ) :
    GazeDetector × EOGEvent :=
  if eog > BLINK_THRESHOLD then
    ({ g with currentGaze := EOGEvent.none }, EOGEvent.none)
  else
    let newGaze :=
      if eog > LOOK_UP_THRESHOLD then some EOGEvent.lookUp
      else if eog < LOOK_DOWN_THRESHOLD then some EOGEvent.lookDown
      else none
    match newGaze with
    | none => ({ g with currentGaze := EOGEvent.none }, EOGEvent.none)
    | some ng =>
        if ng ≠ g.currentGaze then
          ({ g with currentGaze := ng, gazeStartTime := now }, EOGEvent.none)
        else if now - g.gazeStartTime ≥ g.minGazeDuration then
          (g, g.currentGaze)
        else
          (g, EOGEvent.none)

/-! ## HorizontalGazeDetector (`event_detector.py` lines 234–270) -/

/-- Mutable fields of `HorizontalGazeDetector`.  `_min_gaze_duration` is
`0.15` in `__init__`. -/
structure HorizontalGazeDetector where
  gazeStartTime : ℚ
  currentGaze : EOGEvent
  minGazeDuration : ℚ
  lastTriggerTime : ℚ
  deriving DecidableEq, Repr

/-- `HorizontalGazeDetector.__init__`. -/
def HorizontalGazeDetector.init : HorizontalGazeDetector :=
  { gazeStartTime := 0, currentGaze := EOGEvent.none, minGazeDuration := 3/20,
    lastTriggerTime := -100 }

/-- `HorizontalGazeDetector.update(eog_h, now)`. -/
def HorizontalGazeDetector.update (g : HorizontalGazeDetector) (eog_h now : ℚ) :
    HorizontalGazeDetector × EOGEvent :=
  let newGaze :=
    if eog_h > LOOK_RIGHT_THRESHOLD then some EOGEvent.lookRight
    else if eog_h < LOOK_LEFT_THRESHOLD then some EOGEvent.lookLeft
    else none
  match newGaze with
  | none => ({ g with currentGaze := EOGEvent.none }, EOGEvent.none)
  | some ng =>
      if ng ≠ g.currentGaze then
        ({ g with currentGaze := ng, gazeStartTime := now }, EOGEvent.none)
      else if now - g.gazeStartTime ≥ g.minGazeDuration then
        if now - g.lastTriggerTime > HORIZONTAL_GAZE_COOLDOWN then
          ({ g with lastTriggerTime := now }, g.currentGaze)
        else
          (g, EOGEvent.none)
      else
        (g, EOGEvent.none)

/-! ## HeadRollDetector (`event_detector.py` lines 273–351) -/

/-- Mutable fields of `HeadRollDetector`. -/
structure HeadRollDetector where
  lastTriggerTime : ℚ
  spikeStart : Option ℚ
  spikeDirection : Option RollDirection
  suppressed : Bool
  deriving DecidableEq, Repr

/-- `HeadRollDetector.__init__`. -/
def HeadRollDetector.init : HeadRollDetector :=
  { lastTriggerTime := -100, spikeStart := none, spikeDirection := none,
    suppressed := false }

/-- `HeadRollDetector.update(gz, now, cursor_frozen)`.  `cursor_frozen`
defaults to `False` at the Python call sites that omit it. -/
def HeadRollDetector.update (d : HeadRollDetector) (gz now : ℚ)
    (cursorFrozen : Bool) : HeadRollDetector × Option ImuResult :=
  if cursorFrozen then
    let above := |gz| > HEAD_ROLL_THRESHOLD
    if above then
      if d.suppressed then
        (d, none)
      else
        match d.spikeStart with
        | none =>
            ({ d with spikeStart := some now,
                      spikeDirection := some (if gz > 0 then RollDirection.right
                                              else RollDirection.left) }, none)
        | some s =>
            if now - s > HEAD_ROLL_MAX_DURATION then
              ({ d with spikeStart := none, spikeDirection := none,
                        suppressed := true }, none)
            else
              (d, none)
    else
      if d.suppressed then
        ({ d with suppressed := false }, none)
      else
        match d.spikeStart with
        | some s =>
            let duration := now - s
            if duration ≤ HEAD_ROLL_MAX_DURATION ∧
                now - d.lastTriggerTime > HEAD_ROLL_COOLDOWN then
              ({ d with spikeStart := none, spikeDirection := none,
                        lastTriggerTime := now }, some ImuResult.switch_window)
            else
              ({ d with spikeStart := none, spikeDirection := none }, none)
        | none => (d, none)
  else
    ({ d with spikeStart := none, spikeDirection := none, suppressed := false },
     none)

/-! ## DoubleNodDetector (`event_detector.py` lines 354–440) -/

/-- Mutable fields of `DoubleNodDetector`. -/
structure DoubleNodDetector where
  lastTriggerTime : ℚ
  spikeStart : Option ℚ
  suppressed : Bool
  firstNodTime : Option ℚ
  deriving DecidableEq, Repr

/-- `DoubleNodDetector.__init__`. -/
def DoubleNodDetector.init : DoubleNodDetector :=
  { lastTriggerTime := -100, spikeStart := none, suppressed := false,
    firstNodTime := none }

/-- Lines 430–432: clear `_first_nod_time` when the pair window has passed
(runs at the end of the `not above` branch unless the method returned). -/
def DoubleNodDetector.expireFirstNod (d : DoubleNodDetector) (now : ℚ) :
    DoubleNodDetector :=
  match d.firstNodTime with
  | some f => if now - f > DOUBLE_NOD_WINDOW then { d with firstNodTime := none }
              else d
  | none => d

/-- `DoubleNodDetector.update(gx, now, cursor_frozen)`. -/
def DoubleNodDetector.update (d : DoubleNodDetector) (gx now : ℚ)
    (cursorFrozen : Bool) : DoubleNodDetector × Option ImuResult :=
  if cursorFrozen then
    let above := |gx| > DOUBLE_NOD_THRESHOLD
    if above then
      if d.suppressed then
        (d, none)
      else
        match d.spikeStart with
        | none => ({ d with spikeStart := some now }, none)
        | some s =>
            if now - s > DOUBLE_NOD_MAX_DURATION then
              ({ d with spikeStart := none, suppressed := true }, none)
            else
              (d, none)
    else
      if d.suppressed then
        (DoubleNodDetector.expireFirstNod { d with suppressed := false } now, none)
      else
        match d.spikeStart with
        | some s =>
            let duration := now - s
            let d1 := { d with spikeStart := none }
            if duration ≤ DOUBLE_NOD_MAX_DURATION then
              match d1.firstNodTime with
              | some f =>
                  if now - f ≤ DOUBLE_NOD_WINDOW ∧
                      now - d1.lastTriggerTime > DOUBLE_NOD_COOLDOWN then
                    -- early `return "center_cursor"`: skips the expiry check
                    ({ d1 with firstNodTime := none, lastTriggerTime := now },
                     some ImuResult.center_cursor)
                  else
                    (DoubleNodDetector.expireFirstNod
                      { d1 with firstNodTime := some now } now, none)
              | none =>
                  (DoubleNodDetector.expireFirstNod
                    { d1 with firstNodTime := some now } now, none)
            else
              (DoubleNodDetector.expireFirstNod d1 now, none)
        | none => (DoubleNodDetector.expireFirstNod d now, none)
  else
    ({ d with spikeStart := none, suppressed := false, firstNodTime := none },
     none)

/-! ## Actions (`cursor_control.py`): the pyautogui effects emitted per sample -/

/-- One host-UI effect issued by a controller during `update`:
`moveRel`, `click`, `click(button=right)`, `doubleClick`, `scroll(±n)`,
`hotkey(alt,tab)`, `hotkey(alt,left/right)`, or the (never reached)
cursor-centering action. -/
inductive UiAction
  | moveCursor (dx dy : ℚ)
  | leftClick
  | rightClick
  | doubleClick
  | scrollUp (amount : ℤ)
  | scrollDown (amount : ℤ)
  | switchWindow
  | centerCursor
  | navBack
  | navForward
  deriving DecidableEq, Repr

/-- Section 2 of both controller `update` methods: blink dispatch
(`DOUBLE_BLINK → click()`, `LONG_BLINK → click(button=right)`). -/
def blinkActions (ev : EOGEvent) : List UiAction :=
  if ev = EOGEvent.doubleBlink then [UiAction.leftClick]
  else if ev = EOGEvent.longBlink then [UiAction.rightClick]
  else []

/-- Section 3 of both controller `update` methods: scroll fusion.  Returns
the new `last_scroll_time` and the scroll actions issued.  The magnitude is
`max(1, int(abs(gx) / deadzone * SCROLL_AMOUNT))`. -/
def scrollDispatch (gazeEv : EOGEvent) (gx deadzone lastScrollTime now : ℚ) :
    ℚ × List UiAction :=
  if gazeEv = EOGEvent.lookUp ∧ gx < -deadzone then
    if now - lastScrollTime > SCROLL_COOLDOWN then
      (now, [UiAction.scrollUp (max 1 (pyInt (|gx| / deadzone * SCROLL_AMOUNT)))])
    else (lastScrollTime, [])
  else if gazeEv = EOGEvent.lookDown ∧ gx > deadzone then
    if now - lastScrollTime > SCROLL_COOLDOWN then
      (now, [UiAction.scrollDown (max 1 (pyInt (|gx| / deadzone * SCROLL_AMOUNT)))])
    else (lastScrollTime, [])
  else (lastScrollTime, [])

/-- Section 4 of both controller `update` methods:
`if roll_event == "switch_window": hotkey(alt, tab)`. -/
def rollActions (rollEv : Option ImuResult) : List UiAction :=
  if rollEv = some ImuResult.switch_window then [UiAction.switchWindow] else []

/-- Section 5 of both controller `update` methods:
`if nod_event == "double_click": doubleClick()` — note the comparison is
against `"double_click"`, while `DoubleNodDetector.update` only ever
returns `"center_cursor"`. -/
def nodActions (nodEv : Option ImuResult) : List UiAction :=
  if nodEv = some ImuResult.double_click then [UiAction.doubleClick] else []

/-- Section 6 of both controller `update` methods: browser back/forward
fusion.  Returns the new `last_nav_time` and the nav actions issued. -/
def navDispatch (horizEv : EOGEvent) (gy deadzone lastNavTime now : ℚ) :
    ℚ × List UiAction :=
  if horizEv = EOGEvent.lookLeft ∧ gy < -deadzone then
    if now - lastNavTime > HORIZONTAL_GAZE_COOLDOWN then (now, [UiAction.navBack])
    else (lastNavTime, [])
  else if horizEv = EOGEvent.lookRight ∧ gy > deadzone then
    if now - lastNavTime > HORIZONTAL_GAZE_COOLDOWN then (now, [UiAction.navForward])
    else (lastNavTime, [])
  else (lastNavTime, [])

/-! ## ThresholdController (`cursor_control.py` lines 48–186) -/

/-- Mutable fields of `ThresholdController`. -/
structure ThresholdController where
  sensitivity : ℚ
  deadzone : ℚ
  blinkDetector : BlinkDetector
  gazeDetector : GazeDetector
  horizontalGazeDetector : HorizontalGazeDetector
  rollDetector : HeadRollDetector
  nodDetector : DoubleNodDetector
  lastScrollTime : ℚ
  lastNavTime : ℚ
  lastRollTime : ℚ
  lastNodTime : ℚ
  deriving DecidableEq, Repr

/-- `ThresholdController.__init__`. -/
def ThresholdController.init : ThresholdController :=
  { sensitivity := CURSOR_SENSITIVITY
    deadzone := GYRO_DEADZONE
    blinkDetector := BlinkDetector.init
    gazeDetector := GazeDetector.init
    horizontalGazeDetector := HorizontalGazeDetector.init
    rollDetector := HeadRollDetector.init
    nodDetector := DoubleNodDetector.init
    lastScrollTime := 0
    lastNavTime := 0
    lastRollTime := 0
    lastNodTime := 0 }

/-- `ThresholdController.update(eog_v, eog_h, gx, gy, gz)` at time `now`
(the method reads `now = time.time()`).  Returns the list of pyautogui
effects issued, in program order, and either the updated controller or the
`AttributeError` escaping from `BlinkDetector.update` (in which case only
the cursor-move effect of section 1 has been issued).  Sections 4 and 5 call
`self.roll_detector.update(gz, now)` / `self.nod_detector.update(gx, now)`
without a `cursor_frozen` argument, so it defaults to `False`. -/
def ThresholdController.update (c : ThresholdController)
    (eog_v eog_h gx gy gz now : ℚ) :
    List UiAction × Except Unit ThresholdController :=
  let gazeVertical := eog_v > LOOK_UP_THRESHOLD ∨ eog_v < LOOK_DOWN_THRESHOLD
  let gazeHorizontal := eog_h > LOOK_RIGHT_THRESHOLD ∨ eog_h < LOOK_LEFT_THRESHOLD
  let headRolling := |gz| > HEAD_ROLL_THRESHOLD
  let headNodding := |gx| > DOUBLE_NOD_THRESHOLD
  let lastRollTime1 := if headRolling then now else c.lastRollTime
  let lastNodTime1 := if headNodding then now else c.lastNodTime
  let anyAction := gazeVertical ∨ gazeHorizontal ∨ headRolling ∨ headNodding ∨
      now - lastRollTime1 < HEAD_ROLL_SUPPRESS_DURATION ∨
      now - lastNodTime1 < HEAD_ROLL_SUPPRESS_DURATION
  let dx := if ¬anyAction ∧ |gy| > c.deadzone then gy * c.sensitivity else 0
  let dy := if ¬anyAction ∧ |gx| > c.deadzone then gx * c.sensitivity else 0
  let moveActs := if dx ≠ 0 ∨ dy ≠ 0 then [UiAction.moveCursor dx dy] else []
  match c.blinkDetector.update eog_v now with
  | Except.error e => (moveActs, Except.error e)
  | Except.ok br =>
      let gres := c.gazeDetector.update eog_v now
      let sres := scrollDispatch gres.2 gx c.deadzone c.lastScrollTime now
      let rres := c.rollDetector.update gz now false
      let nres := c.nodDetector.update gx now false
      let hres := c.horizontalGazeDetector.update eog_h now
      let vres := navDispatch hres.2 gy c.deadzone c.lastNavTime now
      (moveActs ++ blinkActions br.2 ++ sres.2 ++ rollActions rres.2 ++
         nodActions nres.2 ++ vres.2,
       Except.ok { c with
         blinkDetector := br.1
         gazeDetector := gres.1
         horizontalGazeDetector := hres.1
         rollDetector := rres.1
         nodDetector := nres.1
         lastScrollTime := sres.1
         lastNavTime := vres.1
         lastRollTime := lastRollTime1
         lastNodTime := lastNodTime1 })

/-! ## StateSpaceController (`cursor_control.py` lines 189–358) -/

/-- Mutable fields of `StateSpaceController`.  The state vector
`[pos_x, vel_x, pos_y, vel_y]` is split into the four scalars
`px, vx, py, vy`; the `A` and `B` matrices of `__init__` are the constant
matrices determined by `dt`, `velocity_retain` and `sensitivity`, and the
products `A @ state + B @ u` are written out componentwise in `update`. -/
structure StateSpaceController where
  velocityRetain : ℚ
  sensitivity : ℚ
  dt : ℚ
  deadzone : ℚ
  px : ℚ
  vx : ℚ
  py : ℚ
  vy : ℚ
  blinkDetector : BlinkDetector
  gazeDetector : GazeDetector
  horizontalGazeDetector : HorizontalGazeDetector
  rollDetector : HeadRollDetector
  nodDetector : DoubleNodDetector
  lastScrollTime : ℚ
  lastNavTime : ℚ
  lastRollTime : ℚ
  lastNodTime : ℚ
  deriving DecidableEq, Repr

/-- `StateSpaceController.__init__`. -/
def StateSpaceController.init : StateSpaceController :=
  { velocityRetain := SS_VELOCITY_RETAIN
    sensitivity := SS_SENSITIVITY
    dt := SS_DT
    deadzone := GYRO_DEADZONE
    px := 0
    vx := 0
    py := 0
    vy := 0
    blinkDetector := BlinkDetector.init
    gazeDetector := GazeDetector.init
    horizontalGazeDetector := HorizontalGazeDetector.init
    rollDetector := HeadRollDetector.init
    nodDetector := DoubleNodDetector.init
    lastScrollTime := 0
    lastNavTime := 0
    lastRollTime := 0
    lastNodTime := 0 }

/-- `StateSpaceController.update(eog_v, eog_h, gx, gy, gz)` at time `now`.
Section 1: when `any_action` holds, `u = 0` and `state[1] = state[3] = 0`;
then `state = A @ state + B @ u`, a `moveRel` is issued when
`|dx| > 0.1 or |dy| > 0.1`, and the position accumulator is reset to zero.
Sections 2–6 are verbatim the same code as in `ThresholdController.update`. -/
def StateSpaceController.update (c : StateSpaceController)
    (eog_v eog_h gx gy gz now : ℚ) :
    List UiAction × Except Unit StateSpaceController :=
  let gazeVertical := eog_v > LOOK_UP_THRESHOLD ∨ eog_v < LOOK_DOWN_THRESHOLD
  let gazeHorizontal := eog_h > LOOK_RIGHT_THRESHOLD ∨ eog_h < LOOK_LEFT_THRESHOLD
  let headRolling := |gz| > HEAD_ROLL_THRESHOLD
  let headNodding := |gx| > DOUBLE_NOD_THRESHOLD
  let lastRollTime1 := if headRolling then now else c.lastRollTime
  let lastNodTime1 := if headNodding then now else c.lastNodTime
  let anyAction := gazeVertical ∨ gazeHorizontal ∨ headRolling ∨ headNodding ∨
      now - lastRollTime1 < HEAD_ROLL_SUPPRESS_DURATION ∨
      now - lastNodTime1 < HEAD_ROLL_SUPPRESS_DURATION
  let vx0 := if anyAction then 0 else c.vx
  let vy0 := if anyAction then 0 else c.vy
  let ux := if anyAction then 0 else if |gy| > c.deadzone then gy else 0
  let uy := if anyAction then 0 else if |gx| > c.deadzone then gx else 0
  let px1 := c.px + c.dt * vx0
  let vx1 := c.velocityRetain * vx0 + c.sensitivity * ux
  let py1 := c.py + c.dt * vy0
  let vy1 := c.velocityRetain * vy0 + c.sensitivity * uy
  let moveActs := if |px1| > 1/10 ∨ |py1| > 1/10 then [UiAction.moveCursor px1 py1]
                  else []
  match c.blinkDetector.update eog_v now with
  | Except.error e => (moveActs, Except.error e)
  | Except.ok br =>
      let gres := c.gazeDetector.update eog_v now
      let sres := scrollDispatch gres.2 gx c.deadzone c.lastScrollTime now
      let rres := c.rollDetector.update gz now false
      let nres := c.nodDetector.update gx now false
      let hres := c.horizontalGazeDetector.update eog_h now
      let vres := navDispatch hres.2 gy c.deadzone c.lastNavTime now
      (moveActs ++ blinkActions br.2 ++ sres.2 ++ rollActions rres.2 ++
         nodActions nres.2 ++ vres.2,
       Except.ok { c with
         px := 0
         vx := vx1
         py := 0
         vy := vy1
         blinkDetector := br.1
         gazeDetector := gres.1
         horizontalGazeDetector := hres.1
         rollDetector := rres.1
         nodDetector := nres.1
         lastScrollTime := sres.1
         lastNavTime := vres.1
         lastRollTime := lastRollTime1
         lastNodTime := lastNodTime1 })

/-! ## SerialReader (`serial_reader.py`) -/

/-- `SensorPacket` dataclass of `serial_reader.py`. -/
structure SensorPacket where
  timestamp : ℤ
  eog_v : ℤ
  eog_h : ℤ
  gyro_x : ℤ
  gyro_y : ℤ
  gyro_z : ℤ
  pc_time : ℚ
  deriving DecidableEq, Repr

/-- One decoded, stripped serial line, abstracted to what
`read_packet` inspects: either blank (empty `raw_line` or
whitespace-only text), or the comma-split fields, each field being
`some n` when `int(field)` succeeds and `none` when it raises
`ValueError`. -/
inductive SerialLine
  | blank
  | fields (parts : List (Option ℤ))
  deriving DecidableEq, Repr

/-- The parse attempt of `read_packet` (lines 84–106): a 6-field line
with all fields parsing yields `(timestamp, eog_v, eog_h, gx, gy, gz)`;
a legacy 5-field line fills `eog_h` with `EOG_BASELINE = 2048`;
anything else (wrong field count, or a field whose `int()` raises)
fails. -/
def parseFields : List (Option ℤ) → Option (ℤ × ℤ × ℤ × ℤ × ℤ × ℤ)
  | [some t, some v, some h, some x, some y, some z] => some (t, v, h, x, y, z)
  | [some t, some v, some x, some y, some z] => some (t, v, 2048, x, y, z)
  | _ => none

/-- `SerialReader.read_packet` (lines 63–117), as a function of the decoded
line, the wall-clock time `now` (`time.time()`), and the current
`_error_count`.  Returns the parsed packet (or `none` for a drop), the new
error count, and whether `logger.warning` fired on this call
(`_error_count % 100 == 1` after the increment). -/
def readPacket (line : SerialLine) (now : ℚ) (errorCount : ℕ) :
    Option SensorPacket × ℕ × Bool :=
  match line with
  | SerialLine.blank => (none, errorCount, false)
  | SerialLine.fields ps =>
      match parseFields ps with
      | some (t, v, h, x, y, z) =>
          (some { timestamp := t, eog_v := v, eog_h := h, gyro_x := x,
                  gyro_y := y, gyro_z := z, pc_time := now },
           errorCount, false)
      | none =>
          (none, errorCount + 1, (errorCount + 1) % 100 == 1)

/-- Feed a list of lines through `read_packet`, collecting the final
error count and the per-call warning flags (in order). -/
def runLines : List SerialLine → ℚ → ℕ → ℕ × List Bool
  | [], _, c => (c, [])
  | l :: ls, now, c =>
      let r := readPacket l now c
      let rest := runLines ls now r.2.1
      (rest.1, r.2.2 :: rest.2)

/-! ## The `run_ml_mode` call into `StateSpaceController.update` (`main.py`) -/

/-- Python identifiers involved in the `run_ml_mode` →
`StateSpaceController.update` call. -/
inductive PyIdent
  | self
  | eog_v
  | eog_h
  | gx
  | gy
  | gz
  | cursor_frozen_override
  deriving DecidableEq, Repr

/-- The parameter list of `StateSpaceController.update`
(`cursor_control.py` line 242): `def update(self, eog_v, eog_h, gx, gy, gz)`.
It declares no `*args` / `**kwargs` and no `cursor_frozen_override`. -/
def stateSpaceUpdateParams : List PyIdent :=
  [PyIdent.self, PyIdent.eog_v, PyIdent.eog_h, PyIdent.gx, PyIdent.gy,
   PyIdent.gz]

/-- `StateSpaceController.update` declares no `**kwargs`. -/
def stateSpaceUpdateHasVarKeywords : Bool := false

/-- The call in `run_ml_mode` (`main.py` lines 222–226) binds `self` plus
five positional arguments ... -/
def runMlModeCallPositionalCount : ℕ := 6

/-- ... and one keyword argument, `cursor_frozen_override=cursor_frozen`. -/
def runMlModeCallKeywords : List PyIdent := [PyIdent.cursor_frozen_override]

/-- Python call binding (CPython argument-to-parameter matching), reduced
to what decides this call: the positional arguments must fit the parameter
list, and every keyword argument must name a declared parameter unless the
callee has `**kwargs`.  Otherwise the call raises `TypeError` before the
body runs. -/
def pythonCallBinds (params : List PyIdent) (hasVarKeywords : Bool)
    (positionalCount : ℕ) (keywords : List PyIdent) : Bool :=
  positionalCount ≤ params.length &&
    keywords.all (fun k => params.contains k || hasVarKeywords)

/-! ## GyroKalmanFilter (`signal_processing.py` lines 108–239) -/

/-- A 2-vector over ℚ (numpy shape `(2,)`). -/
structure Vec2 where
  a : ℚ
  b : ℚ
  deriving DecidableEq, Repr

/-- A 2×2 matrix over ℚ. -/
structure Mat2 where
  m00 : ℚ
  m01 : ℚ
  m10 : ℚ
  m11 : ℚ
  deriving DecidableEq, Repr

def Mat2.mul (A B : Mat2) : Mat2 :=
  { m00 := A.m00 * B.m00 + A.m01 * B.m10
    m01 := A.m00 * B.m01 + A.m01 * B.m11
    m10 := A.m10 * B.m00 + A.m11 * B.m10
    m11 := A.m10 * B.m01 + A.m11 * B.m11 }

def Mat2.add (A B : Mat2) : Mat2 :=
  { m00 := A.m00 + B.m00, m01 := A.m01 + B.m01,
    m10 := A.m10 + B.m10, m11 := A.m11 + B.m11 }

def Mat2.sub (A B : Mat2) : Mat2 :=
  { m00 := A.m00 - B.m00, m01 := A.m01 - B.m01,
    m10 := A.m10 - B.m10, m11 := A.m11 - B.m11 }

def Mat2.transpose (A : Mat2) : Mat2 :=
  { m00 := A.m00, m01 := A.m10, m10 := A.m01, m11 := A.m11 }

/-- `A @ v` for a column 2-vector. -/
def Mat2.mulVec (A : Mat2) (v : Vec2) : Vec2 :=
  { a := A.m00 * v.a + A.m01 * v.b, b := A.m10 * v.a + A.m11 * v.b }

def Mat2.identity : Mat2 := { m00 := 1, m01 := 0, m10 := 0, m11 := 1 }

def Vec2.dot (u v : Vec2) : ℚ := u.a * v.a + u.b * v.b

def Vec2.add (u v : Vec2) : Vec2 := { a := u.a + v.a, b := u.b + v.b }

def Vec2.smul (c : ℚ) (v : Vec2) : Vec2 := { a := c * v.a, b := c * v.b }

/-- Column-times-row outer product (`K @ H` for `K : (2,1)`, `H : (1,2)`). -/
def Vec2.outer (u v : Vec2) : Mat2 :=
  { m00 := u.a * v.a, m01 := u.a * v.b, m10 := u.b * v.a, m11 := u.b * v.b }

/-- Fields of `GyroKalmanFilter`: state `x = [omega, bias]`, covariance `P`,
and the constant `F`, `Q`, `H` (stored as the row `[1, 1]`), `R`. -/
structure GyroKalmanFilter where
  x : Vec2
  P : Mat2
  F : Mat2
  Q : Mat2
  H : Vec2
  R : ℚ
  deriving DecidableEq, Repr

/-- `GyroKalmanFilter.__init__(q_omega, q_bias, r)`. -/
def GyroKalmanFilter.mkFilter (qOmega qBias r : ℚ) : GyroKalmanFilter :=
  { x := { a := 0, b := 0 }
    P := { m00 := 1000, m01 := 0, m10 := 0, m11 := 1000 }
    F := { m00 := 0, m01 := 0, m10 := 0, m11 := 1 }
    Q := { m00 := qOmega, m01 := 0, m10 := 0, m11 := qBias }
    H := { a := 1, b := 1 }
    R := r }

/-- `GyroKalmanFilter()` with the `config.py` defaults. -/
def GyroKalmanFilter.initDefault : GyroKalmanFilter :=
  GyroKalmanFilter.mkFilter KALMAN_Q_OMEGA KALMAN_Q_BIAS KALMAN_R

/-- `GyroKalmanFilter.update(z)` (lines 155–187), mirroring the numpy
operations line by line; returns the updated filter and `self.x[0]`. -/
def GyroKalmanFilter.update (k : GyroKalmanFilter) (z : ℚ) :
    GyroKalmanFilter × ℚ :=
  let xPred := k.F.mulVec k.x
  let pPred := ((k.F.mul k.P).mul k.F.transpose).add k.Q
  let y := z - k.H.dot xPred
  let s := k.H.dot (pPred.mulVec k.H) + k.R
  let kGain := Vec2.smul (1 / s) (pPred.mulVec k.H)
  let x1 := xPred.add (Vec2.smul y kGain)
  let p1 := (Mat2.identity.sub (kGain.outer k.H)).mul pPred
  ({ k with x := x1, P := p1 }, x1.a)

/-- `GyroKalmanFilter.set_initial_bias(bias)` (lines 193–202). -/
def GyroKalmanFilter.setInitialBias (k : GyroKalmanFilter) (bias : ℚ) :
    GyroKalmanFilter :=
  { k with x := { a := k.x.a, b := bias }, P := { k.P with m11 := 100 } }

/-- `GyroKalmanFilter3Axis`: three independent per-axis filters. -/
structure GyroKalmanFilter3Axis where
  kfX : GyroKalmanFilter
  kfY : GyroKalmanFilter
  kfZ : GyroKalmanFilter
  deriving DecidableEq, Repr

/-- `GyroKalmanFilter3Axis.update(gx, gy, gz)` (lines 225–235): runs each
axis filter and returns `int(round(...))` of each estimate. -/
def GyroKalmanFilter3Axis.update (k : GyroKalmanFilter3Axis)
    (gx gy gz : ℚ) : GyroKalmanFilter3Axis × ℤ × ℤ × ℤ :=
  let rx := k.kfX.update gx
  let ry := k.kfY.update gy
  let rz := k.kfZ.update gz
  ({ kfX := rx.1, kfY := ry.1, kfZ := rz.1 },
   pyRound rx.2, pyRound ry.2, pyRound rz.2)

/-- Refinement target for C9, written from the spec's words (§4.2): with
`F = [[0,0],[0,1]]`, `Q = diag(1000, 0.001)`, `H = [1,1]`, `R = 500`,
the predict step gives `x' = (0, bias)` and
`P' = F P Fᵀ + Q = [[Q_ω, 0], [0, P₁₁ + Q_b]]`; then innovation
`y = z − H x'`, scalar `S = H P' Hᵀ + R`, gain `K = P' Hᵀ / S`,
update `x = x' + K·y`, `P = (I − K H) P'`; `ω̂ = x[0]` is the returned
estimate. -/
def specKalmanStep (x : Vec2) (P : Mat2) (z : ℚ) : Vec2 × Mat2 × ℚ :=
  let xPred : Vec2 := { a := 0, b := x.b }
  let pPred : Mat2 := { m00 := KALMAN_Q_OMEGA, m01 := 0, m10 := 0,
                        m11 := P.m11 + KALMAN_Q_BIAS }
  let y := z - (xPred.a + xPred.b)
  let s := pPred.m00 + pPred.m01 + pPred.m10 + pPred.m11 + KALMAN_R
  let ka := (pPred.m00 + pPred.m01) / s
  let kb := (pPred.m10 + pPred.m11) / s
  let x1 : Vec2 := { a := xPred.a + ka * y, b := xPred.b + kb * y }
  let p1 : Mat2 :=
    { m00 := (1 - ka) * pPred.m00 - ka * pPred.m10
      m01 := (1 - ka) * pPred.m01 - ka * pPred.m11
      m10 := -kb * pPred.m00 + (1 - kb) * pPred.m10
      m11 := -kb * pPred.m01 + (1 - kb) * pPred.m11 }
  (x1, p1, x1.a)

/-! ## EOGLowPassFilter (`signal_processing.py` lines 14–50) -/

/-- One second-order section `[b0, b1, b2, 1, a1, a2]` as produced by
`scipy.signal.butter(..., output="sos")` (normalized `a0 = 1`). -/
structure SOSSection where
  b0 : ℚ
  b1 : ℚ
  b2 : ℚ
  a1 : ℚ
  a2 : ℚ
  deriving DecidableEq, Repr

/-- One step of one section in direct form II transposed, as `sosfilt`
computes it: output `y = b0·x + z1`, new state
`(b1·x + z2 − a1·y, b2·x − a2·y)`. -/
def sectionStep (s : SOSSection) (z : ℚ × ℚ) (x : ℚ) : ℚ × (ℚ × ℚ) :=
  let y := s.b0 * x + z.1
  (y, (s.b1 * x + z.2 - s.a1 * y, s.b2 * x - s.a2 * y))

/-- Run a sample through the cascade of sections, threading each section's
two-element state; returns the cascade output and the new states. -/
def runSections : List SOSSection → List (ℚ × ℚ) → ℚ → ℚ × List (ℚ × ℚ)
  | [], _, x => (x, [])
  | s :: ss, zs, x =>
      let r := sectionStep s (zs.headD (0, 0)) x
      let rest := runSections ss zs.tail r.1
      (rest.1, r.2 :: rest.2)

/-- `self._zi_template * sample`: elementwise scaling of the per-section
initial conditions. -/
def scaleZi (c : ℚ) (zs : List (ℚ × ℚ)) : List (ℚ × ℚ) :=
  zs.map (fun p => (c * p.1, c * p.2))

/-- State of `EOGLowPassFilter`: the SOS coefficients from
`butter(order, cutoff/nyquist, output="sos")`, the steady-state template
from `sosfilt_zi(sos)`, and the live filter memory `zi` (`None` until the
first sample). -/
structure EOGLowPassFilter where
  sos : List SOSSection
  ziTemplate : List (ℚ × ℚ)
  zi : Option (List (ℚ × ℚ))
  deriving DecidableEq, Repr

/-- `EOGLowPassFilter.filter_sample(sample)` (lines 38–46): on the first
sample, seed `zi = zi_template * sample`; then run `sosfilt` on the single
sample and store the returned state. -/
def EOGLowPassFilter.filterSample (f : EOGLowPassFilter) (sample : ℚ) :
    ℚ × EOGLowPassFilter :=
  let zi0 := match f.zi with
    | none => scaleZi sample f.ziTemplate
    | some z => z
  let r := runSections f.sos zi0 sample
  (r.1, { f with zi := some r.2 })

/-- `EOGLowPassFilter.reset()`. -/
def EOGLowPassFilter.reset (f : EOGLowPassFilter) : EOGLowPassFilter :=
  { f with zi := none }

/-- Feed the constant value `v` through the filter `n + 1` times; returns
the `n`-th output (0-indexed) and the filter state after it. -/
def feedConst (f : EOGLowPassFilter) (v : ℚ) : ℕ → ℚ × EOGLowPassFilter
  | 0 => f.filterSample v
  | n + 1 => ((feedConst f v n).2).filterSample v

/-! ## Helper functions for stating claims -/

/-- Does the action list contain a `moveRel` (cursor motion)? -/
def UiAction.isMove : UiAction → Bool
  | UiAction.moveCursor _ _ => true
  | _ => false

def containsMove (l : List UiAction) : Bool := l.any UiAction.isMove

/-- Velocity components of the state vector after a (successful) update;
an update that died in `AttributeError` constrains nothing. -/
def velocitiesZeroed : Except Unit StateSpaceController → Bool
  | Except.ok c2 => decide (c2.vx = 0) && decide (c2.vy = 0)
  | Except.error _ => true

/-- The magnitudes of the `ScrollUp` actions in a list, in order. -/
def scrollUpAmounts (l : List UiAction) : List ℤ :=
  l.filterMap (fun a => match a with
    | UiAction.scrollUp n => some n
    | _ => none)

/-- The magnitudes of the `ScrollDown` actions in a list, in order. -/
def scrollDownAmounts (l : List UiAction) : List ℤ :=
  l.filterMap (fun a => match a with
    | UiAction.scrollDown n => some n
    | _ => none)

/-- A reachable `ThresholdController` state in which the vertical gaze has
been `LookUp` since `t = 0` and no scroll has fired recently. -/
def c7ThrState : ThresholdController :=
  { ThresholdController.init with
    gazeDetector := { gazeStartTime := 0, currentGaze := EOGEvent.lookUp,
                      minGazeDuration := 1/10 }
    lastScrollTime := -10 }

/-- A one-section unit-DC-gain SOS cascade used to witness C10:
`y[n] = x[n]/4 + x[n−1]/4 + y[n−1]/2`. -/
def demoSos : List SOSSection :=
  [{ b0 := 1/4, b1 := 1/4, b2 := 0, a1 := -1/2, a2 := 0 }]

/-- The steady-state initial condition of `demoSos` for unit input
(what `sosfilt_zi` returns for it). -/
def demoZiT : List (ℚ × ℚ) := [(3/4, 0)]

/-! ## Helper lemmas -/

/-- With `cursor_frozen = False` (the value at both controller call sites),
`HeadRollDetector.update` only resets its state and returns `None`. -/
theorem rollUpdate_unfrozen_snd (d : HeadRollDetector) (gz now : ℚ) :
    (d.update gz now false).2 = none := rfl

/-- With `cursor_frozen = False`, `DoubleNodDetector.update` only resets
its state and returns `None`. -/
theorem nodUpdate_unfrozen_snd (d : DoubleNodDetector) (gx now : ℚ) :
    (d.update gx now false).2 = none := rfl

theorem mem_blinkActions {a : UiAction} {ev : EOGEvent}
    (h : a ∈ blinkActions ev) :
    a = UiAction.leftClick ∨ a = UiAction.rightClick := by
  unfold blinkActions at h
  split_ifs at h <;> simp_all

theorem mem_scrollDispatch {a : UiAction} {gazeEv : EOGEvent}
    {gx dz ls now : ℚ} (h : a ∈ (scrollDispatch gazeEv gx dz ls now).2) :
    (∃ n, a = UiAction.scrollUp n) ∨ (∃ n, a = UiAction.scrollDown n) := by
  unfold scrollDispatch at h
  split_ifs at h <;> simp_all

theorem mem_rollActions {a : UiAction} {r : Option ImuResult}
    (h : a ∈ rollActions r) : a = UiAction.switchWindow := by
  unfold rollActions at h
  split_ifs at h <;> simp_all

theorem mem_nodActions {a : UiAction} {r : Option ImuResult}
    (h : a ∈ nodActions r) : a = UiAction.doubleClick := by
  unfold nodActions at h
  split_ifs at h <;> simp_all

theorem mem_navDispatch {a : UiAction} {horizEv : EOGEvent}
    {gy dz ln now : ℚ} (h : a ∈ (navDispatch horizEv gy dz ln now).2) :
    a = UiAction.navBack ∨ a = UiAction.navForward := by
  unfold navDispatch at h
  split_ifs at h <;> simp_all

/-- Shape of any action emitted by `ThresholdController.update`: because
both IMU detectors are invoked with `cursor_frozen` defaulted to `False`,
their dispatch sections contribute nothing, and in particular neither
`hotkey(alt, tab)` nor a double click nor a cursor-centering action can
ever be issued. -/
theorem thresholdUpdate_mem {c : ThresholdController}
    {eog_v eog_h gx gy gz now : ℚ} {a : UiAction}
    (h : a ∈ (c.update eog_v eog_h gx gy gz now).1) :
    (∃ dx dy, a = UiAction.moveCursor dx dy) ∨ a = UiAction.leftClick ∨
    a = UiAction.rightClick ∨ (∃ n, a = UiAction.scrollUp n) ∨
    (∃ n, a = UiAction.scrollDown n) ∨ a = UiAction.navBack ∨
    a = UiAction.navForward := by
  unfold ThresholdController.update at h
  cases hb : c.blinkDetector.update eog_v now with
  | error e =>
      rw [hb] at h
      simp only [] at h
      split_ifs at h <;> simp_all
  | ok br =>
      rw [hb] at h
      simp only [List.mem_append] at h
      rcases h with ((((h | h) | h) | h) | h) | h
      · split_ifs at h <;> simp_all
      · rcases mem_blinkActions h with rfl | rfl
        · exact Or.inr (Or.inl rfl)
        · exact Or.inr (Or.inr (Or.inl rfl))
      · rcases mem_scrollDispatch h with ⟨n, rfl⟩ | ⟨n, rfl⟩
        · exact Or.inr (Or.inr (Or.inr (Or.inl ⟨n, rfl⟩)))
        · exact Or.inr (Or.inr (Or.inr (Or.inr (Or.inl ⟨n, rfl⟩))))
      · rw [rollUpdate_unfrozen_snd] at h
        simp [rollActions] at h
      · rw [nodUpdate_unfrozen_snd] at h
        simp [nodActions] at h
      · rcases mem_navDispatch h with rfl | rfl
        · exact Or.inr (Or.inr (Or.inr (Or.inr (Or.inr (Or.inl rfl)))))
        · exact Or.inr (Or.inr (Or.inr (Or.inr (Or.inr (Or.inr rfl)))))

/-- Same shape lemma for `StateSpaceController.update` (sections 2–6 are
the same code). -/
theorem ssUpdate_mem {c : StateSpaceController}
    {eog_v eog_h gx gy gz now : ℚ} {a : UiAction}
    (h : a ∈ (c.update eog_v eog_h gx gy gz now).1) :
    (∃ dx dy, a = UiAction.moveCursor dx dy) ∨ a = UiAction.leftClick ∨
    a = UiAction.rightClick ∨ (∃ n, a = UiAction.scrollUp n) ∨
    (∃ n, a = UiAction.scrollDown n) ∨ a = UiAction.navBack ∨
    a = UiAction.navForward := by
  unfold StateSpaceController.update at h
  cases hb : c.blinkDetector.update eog_v now with
  | error e =>
      rw [hb] at h
      simp only [] at h
      split_ifs at h <;> simp_all
  | ok br =>
      rw [hb] at h
      simp only [List.mem_append] at h
      rcases h with ((((h | h) | h) | h) | h) | h
      · split_ifs at h <;> simp_all
      · rcases mem_blinkActions h with rfl | rfl
        · exact Or.inr (Or.inl rfl)
        · exact Or.inr (Or.inr (Or.inl rfl))
      · rcases mem_scrollDispatch h with ⟨n, rfl⟩ | ⟨n, rfl⟩
        · exact Or.inr (Or.inr (Or.inr (Or.inl ⟨n, rfl⟩)))
        · exact Or.inr (Or.inr (Or.inr (Or.inr (Or.inl ⟨n, rfl⟩))))
      · rw [rollUpdate_unfrozen_snd] at h
        simp [rollActions] at h
      · rw [nodUpdate_unfrozen_snd] at h
        simp [nodActions] at h
      · rcases mem_navDispatch h with rfl | rfl
        · exact Or.inr (Or.inr (Or.inr (Or.inr (Or.inr (Or.inl rfl)))))
        · exact Or.inr (Or.inr (Or.inr (Or.inr (Or.inr (Or.inr rfl)))))

/-! ## Claim theorems -/

/-- C1: the claim expects the end-to-end freeze-then-roll scenario to emit
exactly one `SwitchWindow`; in fact `ThresholdController.update` calls
`self.roll_detector.update(gz, now)` without the `cursor_frozen` argument
(line 151), so the detector is permanently un-frozen, resets its spike
state on every sample, and `hotkey(alt, tab)` is unreachable: no sample of
any stream, the claimed scenario included, ever emits `SwitchWindow`. -/
theorem claim_C1_threshold_never_switch_window (c : ThresholdController)
    (eog_v eog_h gx gy gz now : ℚ) :
    UiAction.switchWindow ∉ (c.update eog_v eog_h gx gy gz now).1 := by
  intro h
  rcases thresholdUpdate_mem h with ⟨dx, dy, h⟩ | h | h | ⟨n, h⟩ | ⟨n, h⟩ | h | h <;>
    simp_all

/-- C2: the claim expects a double nod (while frozen) to dispatch
`CenterCursor` (or `DoubleClick` in legacy modes); in fact both
controllers call `self.nod_detector.update(gx, now)` without
`cursor_frozen` (so the detector always returns `None`), and additionally
compare the result against `"double_click"` while the detector returns
`"center_cursor"`: neither controller can ever issue a double click or a
cursor-centering action, on any input. -/
theorem claim_C2_nod_dispatch_unreachable (c : ThresholdController)
    (s : StateSpaceController) (eog_v eog_h gx gy gz now : ℚ) :
    (UiAction.doubleClick ∉ (c.update eog_v eog_h gx gy gz now).1 ∧
     UiAction.centerCursor ∉ (c.update eog_v eog_h gx gy gz now).1) ∧
    (UiAction.doubleClick ∉ (s.update eog_v eog_h gx gy gz now).1 ∧
     UiAction.centerCursor ∉ (s.update eog_v eog_h gx gy gz now).1) := by
  refine ⟨⟨fun h => ?_, fun h => ?_⟩, ⟨fun h => ?_, fun h => ?_⟩⟩
  · rcases thresholdUpdate_mem h with ⟨dx, dy, h⟩ | h | h | ⟨n, h⟩ | ⟨n, h⟩ | h | h <;>
      simp_all
  · rcases thresholdUpdate_mem h with ⟨dx, dy, h⟩ | h | h | ⟨n, h⟩ | ⟨n, h⟩ | h | h <;>
      simp_all
  · rcases ssUpdate_mem h with ⟨dx, dy, h⟩ | h | h | ⟨n, h⟩ | ⟨n, h⟩ | h | h <;>
      simp_all
  · rcases ssUpdate_mem h with ⟨dx, dy, h⟩ | h | h | ⟨n, h⟩ | ⟨n, h⟩ | h | h <;>
      simp_all

/-- C3: the claim says the `run_ml_mode` per-sample call
`controller.update(..., cursor_frozen_override=...)` is accepted by
`StateSpaceController.update` for all inputs; in fact the method declares
only `(self, eog_v, eog_h, gx, gy, gz)` and no `**kwargs`, so the keyword
`cursor_frozen_override` does not bind and CPython raises `TypeError` on
every sample before the body runs. -/
theorem claim_C3_ml_call_never_binds :
    pythonCallBinds stateSpaceUpdateParams stateSpaceUpdateHasVarKeywords
      runMlModeCallPositionalCount runMlModeCallKeywords = false := rfl

/-- C8: the claim says that in `WaitThird` a timeout emits `DoubleBlink`
and returns to `Idle`; in fact every `BlinkDetector.update` call made in
state `WAIT_THIRD` evaluates the undefined `config.TRIPLE_BLINK_WINDOW`
(line 160 when the sample is high, line 165 otherwise) and raises
`AttributeError`, for every sample value and time. -/
theorem claim_C8_waitThird_raises (bs be : ℚ) (cnt : ℕ) (last eog now : ℚ) :
    BlinkDetector.update
      { state := BlinkState.waitThird, blinkStartTime := bs,
        blinkEndTime := be, blinkCount := cnt, lastEventTime := last }
      eog now = Except.error () := rfl

/-- C5 counterexample: starting from a fresh reader, feeding 100 malformed
lines produces 100 drops whose warnings fire on the 1st drop (the claim
says no warning there) and not on the 100th (the claim says a warning
there): `_error_count % 100 == 1` is the actual schedule. -/
theorem claim_C5_counterexample :
    (runLines (List.replicate 100 (SerialLine.fields [])) 0 0).1 = 100 ∧
    (runLines (List.replicate 100 (SerialLine.fields [])) 0 0).2.head? =
      some true ∧
    (runLines (List.replicate 100 (SerialLine.fields [])) 0 0).2.getLast? =
      some false := by
  set_option maxRecDepth 10000 in decide

/-- C5 (amended): a malformed line (wrong field count, or a field whose
`int()` parse fails) is dropped — `read_packet` returns `None` — the drop
counter is incremented, and the warning fires exactly when the
post-increment counter is ≡ 1 (mod 100): the 1st, 101st, 201st, ... drop. -/
theorem claim_C5_malformed_drop (ps : List (Option ℤ)) (now : ℚ) (c : ℕ)
    (h : parseFields ps = none) :
    readPacket (SerialLine.fields ps) now c =
      (none, c + 1, (c + 1) % 100 == 1) := by
  simp only [readPacket, h]

/-- C5 witness: the empty field list is malformed; from a fresh counter the
drop is counted and (being drop number 1) warns. -/
theorem claim_C5_witness :
    parseFields [] = none ∧
    readPacket (SerialLine.fields []) 0 0 = (none, 1, true) :=
  ⟨rfl, claim_C5_malformed_drop [] 0 0 rfl⟩

/-- Supporting invariant for C4: every successful `StateSpaceController.update`
leaves the position accumulator zeroed (`self.state[0] = self.state[2] = 0`
at lines 291–292), and the freshly constructed controller starts zeroed, so
the `px = py = 0` hypothesis of the claim holds at every reachable call. -/
theorem ssUpdate_pos_zeroed (c : StateSpaceController)
    (eog_v eog_h gx gy gz now : ℚ) (c2 : StateSpaceController)
    (h : (c.update eog_v eog_h gx gy gz now).2 = Except.ok c2) :
    c2.px = 0 ∧ c2.py = 0 := by
  unfold StateSpaceController.update at h
  cases hb : c.blinkDetector.update eog_v now with
  | error e => rw [hb] at h; simp at h
  | ok br =>
      rw [hb] at h
      simp only [Except.ok.injEq] at h
      subst h
      exact ⟨rfl, rfl⟩

/-- C4: on any sample whose horizontal EOG level is beyond threshold
(`eog_h > 2800` or `eog_h < 1200`), `any_action` holds, so the state-space
controller feeds `u = 0` and force-zeroes the velocity states before the
step; starting from the invariant position `px = py = 0` the emitted delta
is `0` (so no `moveRel` is issued) and both velocity components are `0`
after the step. -/
theorem claim_C4_frozen_no_motion (c : StateSpaceController)
    (eog_v eog_h gx gy gz now : ℚ)
    (hfrozen : eog_h > LOOK_RIGHT_THRESHOLD ∨ eog_h < LOOK_LEFT_THRESHOLD)
    (hpx : c.px = 0) (hpy : c.py = 0) :
    containsMove (c.update eog_v eog_h gx gy gz now).1 = false ∧
    velocitiesZeroed (c.update eog_v eog_h gx gy gz now).2 = true := by
  simp only [StateSpaceController.update]
  have hA : (eog_v > LOOK_UP_THRESHOLD ∨ eog_v < LOOK_DOWN_THRESHOLD) ∨
      (eog_h > LOOK_RIGHT_THRESHOLD ∨ eog_h < LOOK_LEFT_THRESHOLD) ∨
      |gz| > HEAD_ROLL_THRESHOLD ∨ |gx| > DOUBLE_NOD_THRESHOLD ∨
      now - (if |gz| > HEAD_ROLL_THRESHOLD then now else c.lastRollTime) <
        HEAD_ROLL_SUPPRESS_DURATION ∨
      now - (if |gx| > DOUBLE_NOD_THRESHOLD then now else c.lastNodTime) <
        HEAD_ROLL_SUPPRESS_DURATION :=
    Or.inr (Or.inl hfrozen)
  rw [if_pos hA, if_pos hA, if_pos hA, if_pos hA]
  have hpx1 : c.px + c.dt * 0 = 0 := by rw [hpx]; ring
  have hpy1 : c.py + c.dt * 0 = 0 := by rw [hpy]; ring
  rw [hpx1, hpy1]
  have hmove : ¬(|(0 : ℚ)| > 1/10 ∨ |(0 : ℚ)| > 1/10) := by norm_num
  rw [if_neg hmove]
  cases hb : c.blinkDetector.update eog_v now with
  | error e =>
      constructor
      · rfl
      · rfl
  | ok br =>
      constructor
      · simp [containsMove, List.any_append, blinkActions, rollActions,
          nodActions, scrollDispatch, navDispatch, UiAction.isMove,
          rollUpdate_unfrozen_snd, nodUpdate_unfrozen_snd]
        refine ⟨?_, ?_, ?_⟩ <;> (split_ifs <;> simp)
      · simp only [velocitiesZeroed]
        have hvx : c.velocityRetain * 0 + c.sensitivity * 0 = 0 := by ring
        rw [hvx]
        simp

/-- C4 witness: at `eog_h = 1000 < 1200` (cursor frozen), the freshly
constructed state-space controller emits no cursor motion and ends the
step with zero velocity. -/
theorem claim_C4_witness :
    ((1000 : ℚ) < LOOK_LEFT_THRESHOLD) ∧
    containsMove (StateSpaceController.init.update 2048 1000 0 0 0 0).1 =
      false ∧
    velocitiesZeroed (StateSpaceController.init.update 2048 1000 0 0 0 0).2 =
      true := by
  have h := claim_C4_frozen_no_motion StateSpaceController.init 2048 1000 0 0 0 0
    (Or.inr (by norm_num [LOOK_LEFT_THRESHOLD])) rfl rfl
  exact ⟨by norm_num [LOOK_LEFT_THRESHOLD], h.1, h.2⟩

/-- C6 counterexample: a blink of duration exactly `MIN_DUR = 0.05 s`
(rise at `t = 0` from the fresh detector, release at `t = 0.05`) is NOT
discarded: the code's discard guard is strict (`duration < MIN_DUR`), so
the release enters `WAIT_SECOND`, contradicting the claim that exactly
`MIN_DUR` is discarded with no wait state. -/
theorem claim_C6_counterexample :
    BlinkDetector.update BlinkDetector.init 3500 0 =
      Except.ok ({ state := BlinkState.inBlink, blinkStartTime := 0,
                   blinkEndTime := 0, blinkCount := 1, lastEventTime := -100 },
                 EOGEvent.none) ∧
    BlinkDetector.update
      { state := BlinkState.inBlink, blinkStartTime := 0, blinkEndTime := 0,
        blinkCount := 1, lastEventTime := -100 } 2048 (1/20) =
      Except.ok ({ state := BlinkState.waitSecond, blinkStartTime := 0,
                   blinkEndTime := 1/20, blinkCount := 1,
                   lastEventTime := -100 }, EOGEvent.none) ∧
    BlinkState.waitSecond ≠ BlinkState.idle := by
  refine ⟨rfl, ?_, by decide⟩
  simp only [BlinkDetector.update]
  norm_num [BLINK_THRESHOLD, BLINK_MIN_DURATION, BLINK_MAX_DURATION,
    LONG_BLINK_MIN_DURATION]

/-- C6 (amended): for a first blink (count = 1) started at `t0`, released
at `t0 + d` with a sub-threshold sample: duration strictly below
`MIN_DUR = 0.05 s` is discarded; exactly `MIN_DUR` is treated as a valid
short blink and enters `WaitSecond` (no event); exactly `LONG_MIN = 0.4 s`
with cooldown elapsed emits `LongBlink`; exactly `LONG_MAX = 2.5 s` with
cooldown elapsed emits `LongBlink`; strictly above `LONG_MAX` emits
nothing and returns to `Idle`. -/
theorem claim_C6_boundaries (t0 be last : ℚ) :
    (∀ d : ℚ, 0 < d → d < BLINK_MIN_DURATION →
      BlinkDetector.update
        { state := BlinkState.inBlink, blinkStartTime := t0, blinkEndTime := be,
          blinkCount := 1, lastEventTime := last } 2048 (t0 + d) =
        Except.ok ({ state := BlinkState.idle, blinkStartTime := t0,
                     blinkEndTime := be, blinkCount := 1,
                     lastEventTime := last }, EOGEvent.none)) ∧
    (BlinkDetector.update
        { state := BlinkState.inBlink, blinkStartTime := t0, blinkEndTime := be,
          blinkCount := 1, lastEventTime := last } 2048
        (t0 + BLINK_MIN_DURATION) =
      Except.ok ({ state := BlinkState.waitSecond, blinkStartTime := t0,
                   blinkEndTime := t0 + BLINK_MIN_DURATION, blinkCount := 1,
                   lastEventTime := last }, EOGEvent.none)) ∧
    (t0 + LONG_BLINK_MIN_DURATION - last > LONG_BLINK_COOLDOWN →
      BlinkDetector.update
        { state := BlinkState.inBlink, blinkStartTime := t0, blinkEndTime := be,
          blinkCount := 1, lastEventTime := last } 2048
        (t0 + LONG_BLINK_MIN_DURATION) =
      Except.ok ({ state := BlinkState.idle, blinkStartTime := t0,
                   blinkEndTime := be, blinkCount := 1,
                   lastEventTime := t0 + LONG_BLINK_MIN_DURATION },
                 EOGEvent.longBlink)) ∧
    (t0 + LONG_BLINK_MAX_DURATION - last > LONG_BLINK_COOLDOWN →
      BlinkDetector.update
        { state := BlinkState.inBlink, blinkStartTime := t0, blinkEndTime := be,
          blinkCount := 1, lastEventTime := last } 2048
        (t0 + LONG_BLINK_MAX_DURATION) =
      Except.ok ({ state := BlinkState.idle, blinkStartTime := t0,
                   blinkEndTime := be, blinkCount := 1,
                   lastEventTime := t0 + LONG_BLINK_MAX_DURATION },
                 EOGEvent.longBlink)) ∧
    (∀ d : ℚ, d > LONG_BLINK_MAX_DURATION →
      BlinkDetector.update
        { state := BlinkState.inBlink, blinkStartTime := t0, blinkEndTime := be,
          blinkCount := 1, lastEventTime := last } 2048 (t0 + d) =
        Except.ok ({ state := BlinkState.idle, blinkStartTime := t0,
                     blinkEndTime := be, blinkCount := 1,
                     lastEventTime := last }, EOGEvent.none)) := by
  have hlow : ¬((2048 : ℚ) > BLINK_THRESHOLD) := by norm_num [BLINK_THRESHOLD]
  refine ⟨?_, ?_, ?_, ?_, ?_⟩
  · intro d hd0 hd
    simp only [BlinkDetector.update]
    rw [if_neg hlow, show t0 + d - t0 = d by ring, if_pos hd]
  · simp only [BlinkDetector.update]
    rw [if_neg hlow, show t0 + BLINK_MIN_DURATION - t0 = BLINK_MIN_DURATION by ring]
    rw [if_neg (by norm_num [BLINK_MIN_DURATION])]
    rw [if_neg (by norm_num), if_neg (by norm_num)]
    rw [if_neg (by norm_num [BLINK_MIN_DURATION, LONG_BLINK_MIN_DURATION])]
    rw [if_pos (by norm_num [BLINK_MIN_DURATION, BLINK_MAX_DURATION])]
  · intro hcool
    simp only [BlinkDetector.update]
    rw [if_neg hlow,
      show t0 + LONG_BLINK_MIN_DURATION - t0 = LONG_BLINK_MIN_DURATION by ring]
    rw [if_neg (by norm_num [BLINK_MIN_DURATION, LONG_BLINK_MIN_DURATION])]
    rw [if_neg (by norm_num), if_neg (by norm_num)]
    rw [if_pos (by norm_num [LONG_BLINK_MIN_DURATION])]
    rw [if_pos ⟨by norm_num [LONG_BLINK_MIN_DURATION, LONG_BLINK_MAX_DURATION],
      hcool⟩]
  · intro hcool
    simp only [BlinkDetector.update]
    rw [if_neg hlow,
      show t0 + LONG_BLINK_MAX_DURATION - t0 = LONG_BLINK_MAX_DURATION by ring]
    rw [if_neg (by norm_num [BLINK_MIN_DURATION, LONG_BLINK_MAX_DURATION])]
    rw [if_neg (by norm_num), if_neg (by norm_num)]
    rw [if_pos (by norm_num [LONG_BLINK_MIN_DURATION, LONG_BLINK_MAX_DURATION])]
    rw [if_pos ⟨by norm_num [LONG_BLINK_MAX_DURATION], hcool⟩]
  · intro d hd
    have hd25 : d > 5/2 := by
      simpa [LONG_BLINK_MAX_DURATION] using hd
    simp only [BlinkDetector.update]
    rw [if_neg hlow, show t0 + d - t0 = d by ring]
    rw [if_neg (by rw [BLINK_MIN_DURATION]; intro hc; linarith)]
    rw [if_neg (by norm_num), if_neg (by norm_num)]
    rw [if_pos (by rw [LONG_BLINK_MIN_DURATION]; linarith)]
    have hnle : ¬(d ≤ LONG_BLINK_MAX_DURATION ∧
        t0 + d - last > LONG_BLINK_COOLDOWN) := by
      rw [LONG_BLINK_MAX_DURATION]
      exact fun hc => absurd hc.1 (by linarith)
    rw [if_neg hnle]

/-- C6 witness: the amended boundary behaviour evaluated at `t0 = 0`,
`last = −100` (cooldown elapsed), with `d = 0.01` below `MIN_DUR` and
`d = 3` above `LONG_MAX`. -/
theorem claim_C6_witness :
    (BlinkDetector.update
        { state := BlinkState.inBlink, blinkStartTime := 0, blinkEndTime := 0,
          blinkCount := 1, lastEventTime := -100 } 2048 (0 + 1/100) =
      Except.ok ({ state := BlinkState.idle, blinkStartTime := 0,
                   blinkEndTime := 0, blinkCount := 1, lastEventTime := -100 },
                 EOGEvent.none)) ∧
    (BlinkDetector.update
        { state := BlinkState.inBlink, blinkStartTime := 0, blinkEndTime := 0,
          blinkCount := 1, lastEventTime := -100 } 2048
        (0 + LONG_BLINK_MIN_DURATION) =
      Except.ok ({ state := BlinkState.idle, blinkStartTime := 0,
                   blinkEndTime := 0, blinkCount := 1,
                   lastEventTime := 0 + LONG_BLINK_MIN_DURATION },
                 EOGEvent.longBlink)) ∧
    (BlinkDetector.update
        { state := BlinkState.inBlink, blinkStartTime := 0, blinkEndTime := 0,
          blinkCount := 1, lastEventTime := -100 } 2048 (0 + 3) =
      Except.ok ({ state := BlinkState.idle, blinkStartTime := 0,
                   blinkEndTime := 0, blinkCount := 1, lastEventTime := -100 },
                 EOGEvent.none)) := by
  have h := claim_C6_boundaries 0 0 (-100)
  exact ⟨h.1 (1/100) (by norm_num) (by norm_num [BLINK_MIN_DURATION]),
    h.2.2.1 (by norm_num [LONG_BLINK_MIN_DURATION, LONG_BLINK_COOLDOWN]),
    h.2.2.2.2 3 (by norm_num [LONG_BLINK_MAX_DURATION])⟩

/-- C9: with the `config.py` model (`F = [[0,0],[0,1]]`,
`Q = diag(1000, 0.001)`, `H = [1,1]`, `R = 500`), every
`GyroKalmanFilter.update` computes exactly the specified predict /
innovation / gain / update equations (`specKalmanStep`), returning `x[0]`;
the constructor starts from `x = 0`, `P = diag(1000, 1000)`;
`set_initial_bias(b̂)` sets `x[1] = b̂` and `P[1,1] = 100` leaving
everything else unchanged; and the 3-axis wrapper returns the rounded
integer `x[0]` of each axis. -/
theorem claim_C9_kalman_step :
    (∀ (x : Vec2) (P : Mat2) (z : ℚ),
      GyroKalmanFilter.update
          { x := x, P := P, F := { m00 := 0, m01 := 0, m10 := 0, m11 := 1 },
            Q := { m00 := 1000, m01 := 0, m10 := 0, m11 := 1/1000 },
            H := { a := 1, b := 1 }, R := 500 } z =
        ({ x := (specKalmanStep x P z).1, P := (specKalmanStep x P z).2.1,
           F := { m00 := 0, m01 := 0, m10 := 0, m11 := 1 },
           Q := { m00 := 1000, m01 := 0, m10 := 0, m11 := 1/1000 },
           H := { a := 1, b := 1 }, R := 500 },
         (specKalmanStep x P z).2.2)) ∧
    (GyroKalmanFilter.initDefault =
      { x := { a := 0, b := 0 },
        P := { m00 := 1000, m01 := 0, m10 := 0, m11 := 1000 },
        F := { m00 := 0, m01 := 0, m10 := 0, m11 := 1 },
        Q := { m00 := 1000, m01 := 0, m10 := 0, m11 := 1/1000 },
        H := { a := 1, b := 1 }, R := 500 }) ∧
    (∀ (k : GyroKalmanFilter) (b : ℚ),
      k.setInitialBias b =
        { k with x := { a := k.x.a, b := b }, P := { k.P with m11 := 100 } }) ∧
    (∀ (k3 : GyroKalmanFilter3Axis) (gx gy gz : ℚ),
      (k3.update gx gy gz).2 =
        (pyRound (k3.kfX.update gx).2, pyRound (k3.kfY.update gy).2,
         pyRound (k3.kfZ.update gz).2)) := by
  refine ⟨?_, rfl, fun k b => rfl, fun k3 gx gy gz => rfl⟩
  intro x P z
  simp only [GyroKalmanFilter.update, specKalmanStep, Mat2.mul, Mat2.add,
    Mat2.sub, Mat2.transpose, Mat2.mulVec, Mat2.identity, Vec2.dot, Vec2.add,
    Vec2.smul, Vec2.outer, KALMAN_Q_OMEGA, KALMAN_Q_BIAS, KALMAN_R,
    Prod.mk.injEq, GyroKalmanFilter.mk.injEq, Mat2.mk.injEq, Vec2.mk.injEq]
  norm_num
  refine ⟨⟨⟨?_, ?_⟩, ?_, Or.inl ?_, ?_, Or.inl ?_⟩, ?_⟩ <;> ring

/-! ## C10: low-pass filter linearity and steady-state seeding -/

/-- `sectionStep` is linear in the joint input/state. -/
theorem sectionStep_smul (s : SOSSection) (z : ℚ × ℚ) (x c : ℚ) :
    sectionStep s (c * z.1, c * z.2) (c * x) =
      (c * (sectionStep s z x).1,
       (c * (sectionStep s z x).2.1, c * (sectionStep s z x).2.2)) := by
  simp only [sectionStep, Prod.mk.injEq]
  refine ⟨by ring, by ring, by ring⟩

/-- The SOS cascade is linear: scaling the per-section states and the input
by `c` scales the output and the new states by `c`. -/
theorem runSections_smul (ss : List SOSSection) :
    ∀ (zs : List (ℚ × ℚ)) (x c : ℚ),
      runSections ss (scaleZi c zs) (c * x) =
        (c * (runSections ss zs x).1, scaleZi c (runSections ss zs x).2) := by
  induction ss with
  | nil => intro zs x c; simp [runSections, scaleZi]
  | cons s ss ih =>
      intro zs x c
      have hhead : (scaleZi c zs).headD (0, 0) =
          (c * (zs.headD (0, 0)).1, c * (zs.headD (0, 0)).2) := by
        cases zs with
        | nil => simp [scaleZi]
        | cons z zs' => simp [scaleZi]
      have htail : (scaleZi c zs).tail = scaleZi c zs.tail := by
        cases zs with
        | nil => simp [scaleZi]
        | cons z zs' => simp [scaleZi]
      simp only [runSections, hhead, htail, sectionStep_smul, ih]
      simp [scaleZi]

/-- C10: for a fresh (or reset) filter whose `zi_template` is the
steady-state of the cascade for unit input — the contract of
`sosfilt_zi` for the unit-DC-gain Butterworth cascade — feeding the
constant `v` produces output exactly `v` on every sample starting from
the first, hence within 1 % of `v` throughout, and in particular within
1 % of `v` inside 1 second of samples. -/
theorem claim_C10_constant_input (sos : List SOSSection)
    (ziT : List (ℚ × ℚ)) (v : ℚ) (f : EOGLowPassFilter)
    (hsos : f.sos = sos) (hzi : f.ziTemplate = ziT) (hfresh : f.zi = none)
    (hsteady : runSections sos ziT 1 = (1, ziT)) :
    ∀ n : ℕ, (feedConst f v n).1 = v ∧
      |(feedConst f v n).1 - v| ≤ |v| / 100 := by
  have hstep : runSections sos (scaleZi v ziT) v = (v, scaleZi v ziT) := by
    have h := runSections_smul sos ziT 1 v
    rw [hsteady] at h
    simpa using h
  have key : ∀ n : ℕ, feedConst f v n =
      (v, { f with zi := some (scaleZi v ziT) }) := by
    intro n
    induction n with
    | zero =>
        simp only [feedConst, EOGLowPassFilter.filterSample, hfresh, hsos, hzi,
          hstep]
    | succ n ihn =>
        simp only [feedConst, ihn, EOGLowPassFilter.filterSample, hsos, hstep]
  intro n
  rw [key n]
  constructor
  · rfl
  · simp only []
    rw [show v - v = 0 by ring]
    simp [abs_nonneg]
    positivity

/-! ## C7: scroll-fusion lemmas -/

theorem scrollUpAmounts_append (l1 l2 : List UiAction) :
    scrollUpAmounts (l1 ++ l2) = scrollUpAmounts l1 ++ scrollUpAmounts l2 :=
  List.filterMap_append l1 l2 _

theorem scrollDownAmounts_append (l1 l2 : List UiAction) :
    scrollDownAmounts (l1 ++ l2) = scrollDownAmounts l1 ++ scrollDownAmounts l2 :=
  List.filterMap_append l1 l2 _

theorem scrollUpAmounts_ite_move (P : Prop) [Decidable P] (dx dy : ℚ) :
    scrollUpAmounts (if P then [UiAction.moveCursor dx dy] else []) = [] := by
  split_ifs <;> rfl

theorem scrollDownAmounts_ite_move (P : Prop) [Decidable P] (dx dy : ℚ) :
    scrollDownAmounts (if P then [UiAction.moveCursor dx dy] else []) = [] := by
  split_ifs <;> rfl

theorem scrollUpAmounts_blinkActions (ev : EOGEvent) :
    scrollUpAmounts (blinkActions ev) = [] := by
  unfold blinkActions
  split_ifs <;> rfl

theorem scrollDownAmounts_blinkActions (ev : EOGEvent) :
    scrollDownAmounts (blinkActions ev) = [] := by
  unfold blinkActions
  split_ifs <;> rfl

theorem scrollUpAmounts_rollActions (r : Option ImuResult) :
    scrollUpAmounts (rollActions r) = [] := by
  unfold rollActions
  split_ifs <;> rfl

theorem scrollDownAmounts_rollActions (r : Option ImuResult) :
    scrollDownAmounts (rollActions r) = [] := by
  unfold rollActions
  split_ifs <;> rfl

theorem scrollUpAmounts_nodActions (r : Option ImuResult) :
    scrollUpAmounts (nodActions r) = [] := by
  unfold nodActions
  split_ifs <;> rfl

theorem scrollDownAmounts_nodActions (r : Option ImuResult) :
    scrollDownAmounts (nodActions r) = [] := by
  unfold nodActions
  split_ifs <;> rfl

theorem scrollUpAmounts_navDispatch (horizEv : EOGEvent) (gy dz ln now : ℚ) :
    scrollUpAmounts (navDispatch horizEv gy dz ln now).2 = [] := by
  unfold navDispatch
  split_ifs <;> rfl

theorem scrollDownAmounts_navDispatch (horizEv : EOGEvent) (gy dz ln now : ℚ) :
    scrollDownAmounts (navDispatch horizEv gy dz ln now).2 = [] := by
  unfold navDispatch
  split_ifs <;> rfl

/-- The scroll section's `ScrollUp` output, as a guarded singleton. -/
theorem scrollUpAmounts_scrollDispatch (gazeEv : EOGEvent) (gx dz ls now : ℚ) :
    scrollUpAmounts (scrollDispatch gazeEv gx dz ls now).2 =
      (if gazeEv = EOGEvent.lookUp ∧ gx < -dz ∧ now - ls > SCROLL_COOLDOWN then
        [max 1 (pyInt (|gx| / dz * SCROLL_AMOUNT))] else []) := by
  unfold scrollDispatch
  split_ifs <;> simp_all [scrollUpAmounts]

/-- The scroll section's `ScrollDown` output, as a guarded singleton. -/
theorem scrollDownAmounts_scrollDispatch (gazeEv : EOGEvent) (gx dz ls now : ℚ) :
    scrollDownAmounts (scrollDispatch gazeEv gx dz ls now).2 =
      (if gazeEv = EOGEvent.lookDown ∧ gx > dz ∧ now - ls > SCROLL_COOLDOWN then
        [max 1 (pyInt (|gx| / dz * SCROLL_AMOUNT))] else []) := by
  unfold scrollDispatch
  split_ifs <;> simp_all [scrollDownAmounts]

/-- C7 (amended): on every sample on which the controller's update
completes (no blink-detector `AttributeError`), a `ScrollUp` is emitted
iff the vertical gaze detector reports `LookUp`, `gx < −deadzone`, and the
last scroll fired MORE than 80 ms ago (the gate is strict, not "at least"),
and its magnitude is `max(1, int(|gx|/deadzone · 30))` — `int()` truncation,
not rounding; symmetrically for `ScrollDown`; otherwise no scroll is
emitted.  Stated for both controllers. -/
theorem claim_C7_scroll_fusion :
    (∀ (c : ThresholdController) (eog_v eog_h gx gy gz now : ℚ),
      ((c.update eog_v eog_h gx gy gz now).2).toOption.isSome = true →
      scrollUpAmounts (c.update eog_v eog_h gx gy gz now).1 =
        (if (c.gazeDetector.update eog_v now).2 = EOGEvent.lookUp ∧
            gx < -c.deadzone ∧ now - c.lastScrollTime > SCROLL_COOLDOWN then
          [max 1 (pyInt (|gx| / c.deadzone * SCROLL_AMOUNT))] else []) ∧
      scrollDownAmounts (c.update eog_v eog_h gx gy gz now).1 =
        (if (c.gazeDetector.update eog_v now).2 = EOGEvent.lookDown ∧
            gx > c.deadzone ∧ now - c.lastScrollTime > SCROLL_COOLDOWN then
          [max 1 (pyInt (|gx| / c.deadzone * SCROLL_AMOUNT))] else [])) ∧
    (∀ (s : StateSpaceController) (eog_v eog_h gx gy gz now : ℚ),
      ((s.update eog_v eog_h gx gy gz now).2).toOption.isSome = true →
      scrollUpAmounts (s.update eog_v eog_h gx gy gz now).1 =
        (if (s.gazeDetector.update eog_v now).2 = EOGEvent.lookUp ∧
            gx < -s.deadzone ∧ now - s.lastScrollTime > SCROLL_COOLDOWN then
          [max 1 (pyInt (|gx| / s.deadzone * SCROLL_AMOUNT))] else []) ∧
      scrollDownAmounts (s.update eog_v eog_h gx gy gz now).1 =
        (if (s.gazeDetector.update eog_v now).2 = EOGEvent.lookDown ∧
            gx > s.deadzone ∧ now - s.lastScrollTime > SCROLL_COOLDOWN then
          [max 1 (pyInt (|gx| / s.deadzone * SCROLL_AMOUNT))] else [])) := by
  constructor
  · intro c eog_v eog_h gx gy gz now hok
    cases hb : c.blinkDetector.update eog_v now with
    | error e =>
        simp only [ThresholdController.update, hb] at hok
        simp [Except.toOption] at hok
    | ok br =>
        simp only [ThresholdController.update, hb]
        rw [scrollUpAmounts_append, scrollUpAmounts_append,
          scrollUpAmounts_append, scrollUpAmounts_append,
          scrollUpAmounts_append, scrollDownAmounts_append,
          scrollDownAmounts_append, scrollDownAmounts_append,
          scrollDownAmounts_append, scrollDownAmounts_append]
        rw [scrollUpAmounts_ite_move, scrollUpAmounts_blinkActions,
          scrollUpAmounts_rollActions, scrollUpAmounts_nodActions,
          scrollUpAmounts_navDispatch, scrollUpAmounts_scrollDispatch,
          scrollDownAmounts_ite_move, scrollDownAmounts_blinkActions,
          scrollDownAmounts_rollActions, scrollDownAmounts_nodActions,
          scrollDownAmounts_navDispatch, scrollDownAmounts_scrollDispatch]
        simp
  · intro s eog_v eog_h gx gy gz now hok
    cases hb : s.blinkDetector.update eog_v now with
    | error e =>
        simp only [StateSpaceController.update, hb] at hok
        simp [Except.toOption] at hok
    | ok br =>
        simp only [StateSpaceController.update, hb]
        rw [scrollUpAmounts_append, scrollUpAmounts_append,
          scrollUpAmounts_append, scrollUpAmounts_append,
          scrollUpAmounts_append, scrollDownAmounts_append,
          scrollDownAmounts_append, scrollDownAmounts_append,
          scrollDownAmounts_append, scrollDownAmounts_append]
        rw [scrollUpAmounts_ite_move, scrollUpAmounts_blinkActions,
          scrollUpAmounts_rollActions, scrollUpAmounts_nodActions,
          scrollUpAmounts_navDispatch, scrollUpAmounts_scrollDispatch,
          scrollDownAmounts_ite_move, scrollDownAmounts_blinkActions,
          scrollDownAmounts_rollActions, scrollDownAmounts_nodActions,
          scrollDownAmounts_navDispatch, scrollDownAmounts_scrollDispatch]
        simp

/-- C7 counterexample: at `gx = −329` (deadzone 300) the claim's magnitude
is `round(|gx|/deadzone · 30) = round(32.9) = 33`, but the code truncates
with `int()` and emits `ScrollUp(32)`; and with the last scroll exactly
80 ms ago the claim ("at least 80 ms ago") demands a scroll, but the
strict `>` gate emits nothing. -/
theorem claim_C7_counterexample :
    scrollUpAmounts (c7ThrState.update 2900 2048 (-329) 0 0 (1/5)).1 =
      [32] ∧
    max 1 (pyRound (|(-329 : ℚ)| / 300 * 30)) = 33 ∧
    scrollUpAmounts
      ({ c7ThrState with lastScrollTime := 1/5 - SCROLL_COOLDOWN }.update
        2900 2048 (-329) 0 0 (1/5)).1 = [] := by
  have hb : c7ThrState.blinkDetector.update 2900 (1/5) =
      Except.ok (c7ThrState.blinkDetector, EOGEvent.none) := by
    simp only [c7ThrState, ThresholdController.init, BlinkDetector.init,
      BlinkDetector.update]
    norm_num [BLINK_THRESHOLD]
  have hg : (c7ThrState.gazeDetector.update 2900 (1/5)).2 =
      EOGEvent.lookUp := by
    simp only [c7ThrState, ThresholdController.init, GazeDetector.update]
    norm_num [BLINK_THRESHOLD, LOOK_UP_THRESHOLD]
  have hamt : max 1 (pyInt (|(-329 : ℚ)| / GYRO_DEADZONE * SCROLL_AMOUNT)) =
      32 := by
    rw [show (|(-329 : ℚ)| / GYRO_DEADZONE * SCROLL_AMOUNT) = 329/10 by
      norm_num [GYRO_DEADZONE, SCROLL_AMOUNT]]
    norm_num [pyInt]
  refine ⟨?_, ?_, ?_⟩
  · simp only [ThresholdController.update, hb]
    rw [scrollUpAmounts_append, scrollUpAmounts_append,
      scrollUpAmounts_append, scrollUpAmounts_append, scrollUpAmounts_append]
    rw [scrollUpAmounts_ite_move, scrollUpAmounts_blinkActions,
      scrollUpAmounts_rollActions, scrollUpAmounts_nodActions,
      scrollUpAmounts_navDispatch, scrollUpAmounts_scrollDispatch]
    rw [if_pos]
    · rw [show c7ThrState.deadzone = GYRO_DEADZONE from rfl, hamt]
      simp
    · refine ⟨hg, ?_, ?_⟩
      · show (-329 : ℚ) < -c7ThrState.deadzone
        show (-329 : ℚ) < -GYRO_DEADZONE
        norm_num [GYRO_DEADZONE]
      · show (1/5 : ℚ) - c7ThrState.lastScrollTime > SCROLL_COOLDOWN
        show (1/5 : ℚ) - (-10) > SCROLL_COOLDOWN
        norm_num [SCROLL_COOLDOWN]
  · rw [show (|(-329 : ℚ)| / 300 * 30) = 329/10 by norm_num]
    rw [show pyRound (329/10 : ℚ) = 33 by norm_num [pyRound]]
    norm_num
  · simp only [ThresholdController.update, hb]
    rw [scrollUpAmounts_append, scrollUpAmounts_append,
      scrollUpAmounts_append, scrollUpAmounts_append, scrollUpAmounts_append]
    rw [scrollUpAmounts_ite_move, scrollUpAmounts_blinkActions,
      scrollUpAmounts_rollActions, scrollUpAmounts_nodActions,
      scrollUpAmounts_navDispatch, scrollUpAmounts_scrollDispatch]
    rw [if_neg]
    · simp
    · rintro ⟨-, -, hcool⟩
      revert hcool
      show ¬((1/5 : ℚ) - (1/5 - SCROLL_COOLDOWN) > SCROLL_COOLDOWN)
      norm_num

/-- C7 witness: the amended scroll-fusion law evaluated on the
`ScrollUp(32)` scenario for the threshold controller and on a fully idle
sample for the state-space controller. -/
theorem claim_C7_witness :
    ((c7ThrState.update 2900 2048 (-329) 0 0 (1/5)).2).toOption.isSome =
      true ∧
    scrollUpAmounts (c7ThrState.update 2900 2048 (-329) 0 0 (1/5)).1 =
      (if (c7ThrState.gazeDetector.update 2900 (1/5)).2 = EOGEvent.lookUp ∧
          (-329 : ℚ) < -c7ThrState.deadzone ∧
          (1/5 : ℚ) - c7ThrState.lastScrollTime > SCROLL_COOLDOWN then
        [max 1 (pyInt (|(-329 : ℚ)| / c7ThrState.deadzone * SCROLL_AMOUNT))]
      else []) ∧
    ((StateSpaceController.init.update 2048 2048 0 0 0 0).2).toOption.isSome =
      true ∧
    scrollUpAmounts (StateSpaceController.init.update 2048 2048 0 0 0 0).1 =
      (if (StateSpaceController.init.gazeDetector.update 2048 0).2 =
          EOGEvent.lookUp ∧
          (0 : ℚ) < -StateSpaceController.init.deadzone ∧
          (0 : ℚ) - StateSpaceController.init.lastScrollTime >
            SCROLL_COOLDOWN then
        [max 1 (pyInt (|(0 : ℚ)| / StateSpaceController.init.deadzone *
          SCROLL_AMOUNT))]
      else []) := by
  have hthr : ((c7ThrState.update 2900 2048 (-329) 0 0 (1/5)).2).toOption.isSome =
      true := by set_option maxRecDepth 10000 in decide
  have hss : ((StateSpaceController.init.update 2048 2048 0 0 0 0).2).toOption.isSome =
      true := by set_option maxRecDepth 10000 in decide
  exact ⟨hthr,
    (claim_C7_scroll_fusion.1 c7ThrState 2900 2048 (-329) 0 0 (1/5) hthr).1,
    hss,
    (claim_C7_scroll_fusion.2 StateSpaceController.init 2048 2048 0 0 0 0 hss).1⟩

/-- C10 witness: for the concrete cascade `demoSos` with its steady-state
template, constant input `2048` gives output exactly `2048` on sample 200
(1 second at 200 Hz), hence within 1 %. -/
theorem claim_C10_witness :
    runSections demoSos demoZiT 1 = (1, demoZiT) ∧
    (feedConst { sos := demoSos, ziTemplate := demoZiT, zi := none } 2048
      200).1 = 2048 ∧
    |(feedConst { sos := demoSos, ziTemplate := demoZiT, zi := none } 2048
      200).1 - 2048| ≤ |(2048 : ℚ)| / 100 := by
  have hst : runSections demoSos demoZiT 1 = (1, demoZiT) := by
    simp only [demoSos, demoZiT, runSections, sectionStep, List.headD,
      List.tail]
    norm_num
  have h := claim_C10_constant_input demoSos demoZiT 2048
    { sos := demoSos, ziTemplate := demoZiT, zi := none } rfl rfl rfl hst 200
  exact ⟨hst, h.1, h.2⟩
